import Mathlib

/-!
Verification development for the COVID-19 dashboard data pipeline in
src/app.py: the dataset loader load_data_from_s3, the empty_warning guard,
and the per-state aggregation performed by draw_positive_state and
draw_vaccination_state.  Percentage metrics carried as machine floats are
modelled as rational numbers; pandas missing values (NaN, NaT, None) are
modelled as Option.none; a pandas DataFrame is modelled as a list of rows,
together with a flag recording whether the time_value column is present in
the schema.
-/

namespace CovidApp

/-- A calendar date as (year, month, day), the result of parsing a strict
YYYY-MM-DD string. -/
abbrev Date := Nat × Nat × Nat

/-- One raw row as read from the Parquet files under the S3 location: the
time_value column is still unparsed text. -/
structure RawRow where
  geo_value : String
  state_abbr : String
  time_value : String
  smoothed_wtested_positive_14d : Option ℚ
  smoothed_wcovid_vaccinated : Option ℚ
  deriving DecidableEq, Repr

/-- One processed row of the loaded table: time_value has been parsed, with
unparseable dates replaced by the missing marker none (pandas NaT). -/
structure Row where
  geo_value : String
  state_abbr : String
  time_value : Option Date
  smoothed_wtested_positive_14d : Option ℚ
  smoothed_wcovid_vaccinated : Option ℚ
  deriving DecidableEq, Repr

/-- The frame produced by the pd.read_parquet call: its rows plus whether
the time_value column exists in the schema (selecting the column raises
KeyError when it does not). -/
structure RawTable where
  hasTimeValue : Bool
  rows : List RawRow
  deriving DecidableEq, Repr

/-- splitOnDash cs splits a character list at every dash, mirroring how the
strict year-month-day format of pd.to_datetime cuts the string at its two
literal dashes. -/
def splitOnDash : List Char → List (List Char)
  | [] => [[]]
  | c :: rest =>
    if c = '-' then [] :: splitOnDash rest
    else
      match splitOnDash rest with
      | [] => [[c]]
      | g :: gs => (c :: g) :: gs

/-- digitsToNat? reads a nonempty all-digit character group as a number, the
way strptime reads the year, month and day fields; any other group fails. -/
def digitsToNat? (cs : List Char) : Option Nat :=
  if cs ≠ [] ∧ cs.all Char.isDigit then
    some (cs.foldl (fun n c => 10 * n + (c.toNat - 48)) 0)
  else none

/-- Gregorian leap-year rule used by the datetime library when validating a
parsed day of month. -/
def isLeapYear (y : Nat) : Bool :=
  (y % 4 == 0 && y % 100 != 0) || y % 400 == 0

/-- Number of days of month m in year y, used to validate the day field. -/
def daysInMonth (y m : Nat) : Nat :=
  if m = 2 then if isLeapYear y then 29 else 28
  else if m = 4 ∨ m = 6 ∨ m = 9 ∨ m = 11 then 30
  else 31

/-- parseDate models the coercing datetime parse of line 48 of app.py on a
single string: strict year-month-day split on dashes, digit fields, and
calendar validation; any mismatch yields the missing marker none (NaT)
rather than an exception. -/
def parseDate (s : String) : Option Date :=
  match splitOnDash s.toList with
  | [ys, ms, ds] =>
    match digitsToNat? ys, digitsToNat? ms, digitsToNat? ds with
    | some y, some m, some d =>
      if 1 ≤ m ∧ m ≤ 12 ∧ 1 ≤ d ∧ d ≤ daysInMonth y m then some (y, m, d)
      else none
    | _, _, _ => none
  | _ => none

/-- parseRow applies the date conversion of line 48 of app.py to one row,
leaving every other column unchanged. -/
def parseRow (r : RawRow) : Row :=
  { geo_value := r.geo_value,
    state_abbr := r.state_abbr,
    time_value := parseDate r.time_value,
    smoothed_wtested_positive_14d := r.smoothed_wtested_positive_14d,
    smoothed_wcovid_vaccinated := r.smoothed_wcovid_vaccinated }

/-- ReadOutcome is the outcome of the pd.read_parquet call inside the try
block: either the combined frame, or a raised exception carrying a message
(network, authentication or malformed-file failure). -/
abbrev ReadOutcome := Except String RawTable

/-- load_data_from_s3 models lines 40-54 of app.py.  Inside the try block
the Parquet read happens, then the time_value column is overwritten with
its coerced date parse (selecting the absent column raises KeyError); any
exception reaching the except clause is converted to the generic failure
value none, with the exception detail discarded. -/
def load_data_from_s3 (readOutcome : ReadOutcome) : Option (List Row) :=
  match readOutcome with
  | Except.error _ => none
  | Except.ok tbl =>
    if tbl.hasTimeValue then some (tbl.rows.map parseRow) else none

/-- UiMsg distinguishes the Streamlit surfacing calls available to app.py:
st.error, st.warning and st.info. -/
inductive UiMsg where
  | error (msg : String)
  | warning (msg : String)
  | info (msg : String)
  deriving DecidableEq, Repr

/-- Message shown by empty_warning when the frame is None or empty. -/
def emptyWarnMsg : String :=
  "❌ Unable to load data. Please check your db configuration and credentials."

/-- empty_warning models lines 56-61 of app.py: it returns False and emits
one st.error call when the load result is None or the frame has no rows,
and returns True with no message otherwise. -/
def empty_warning (df : Option (List Row)) : Bool × Option UiMsg :=
  match df with
  | none => (false, some (UiMsg.error emptyWarnMsg))
  | some t =>
    if t.isEmpty then (false, some (UiMsg.error emptyWarnMsg)) else (true, none)

/-- StateSummary is one output row of the groupby-mean on line 90 (and line
117): a state code and the mean of the requested metric over that state. -/
structure StateSummary where
  state_abbr : String
  mean : ℚ
  deriving DecidableEq, Repr

/-- dropna models the dropna(subset) call of lines 87 and 114: keep exactly
the rows whose metric value is present. -/
def dropna (M : Row → Option ℚ) (df : List Row) : List Row :=
  df.filter fun r => (M r).isSome

/-- groupMean builds the summary row of one state group: the arithmetic
mean of the metric over the rows of df carrying that state code. -/
def groupMean (M : Row → Option ℚ) (df : List Row) (s : String) : StateSummary :=
  { state_abbr := s,
    mean := ((df.filter fun r => r.state_abbr == s).filterMap M).sum /
      (((df.filter fun r => r.state_abbr == s).filterMap M).length : ℚ) }

/-- groupbyMean models the groupby-mean-reset_index chain of line 90: one
summary row per distinct state value occurring in df. -/
def groupbyMean (M : Row → Option ℚ) (df : List Row) : List StateSummary :=
  (df.map Row.state_abbr).dedup.map (groupMean M df)

/-- aggregateByState is the aggregation pipeline of lines 87-90 (and
114-117): drop missing-metric rows, then group by state and average. -/
def aggregateByState (M : Row → Option ℚ) (df : List Row) : List StateSummary :=
  groupbyMean M (dropna M df)

/-- stateVals lists the metric values contributing to the mean of state s
under metric M: the non-missing metric entries of the rows of that state
that survive the dropna step. -/
def stateVals (M : Row → Option ℚ) (df : List Row) (s : String) : List ℚ :=
  ((dropna M df).filter fun r => r.state_abbr == s).filterMap M

/-- seriesMin models the pandas Series minimum of line 92: none models the
NaN produced on an empty series. -/
def seriesMin : List ℚ → Option ℚ
  | [] => none
  | x :: xs => some (xs.foldl min x)

/-- seriesMax models the pandas Series maximum of line 93. -/
def seriesMax : List ℚ → Option ℚ
  | [] => none
  | x :: xs => some (xs.foldl max x)

/-- rangeOf is the (min_rate, max_rate) pair computed from the per-state
means and handed to range_color. -/
def rangeOf (l : List StateSummary) : Option ℚ × Option ℚ :=
  (seriesMin (l.map StateSummary.mean), seriesMax (l.map StateSummary.mean))

/-- Column selector for smoothed_wtested_positive_14d. -/
def mPos (r : Row) : Option ℚ := r.smoothed_wtested_positive_14d

/-- Column selector for smoothed_wcovid_vaccinated. -/
def mVacc (r : Row) : Option ℚ := r.smoothed_wcovid_vaccinated

/-- draw_positive_state models lines 84-109 of app.py as explicit state
passing on the input frame: every pandas call used there (dropna followed
by copy, groupby, mean, reset_index, min, max) returns a fresh object and
none of them is an in-place variant, so the frame the caller sees after
the call is the second component.  The first component is the summary
table with its colour range. -/
def draw_positive_state (df : List Row) :
    (List StateSummary × Option ℚ × Option ℚ) × List Row :=
  ((aggregateByState mPos df,
    seriesMin ((aggregateByState mPos df).map StateSummary.mean),
    seriesMax ((aggregateByState mPos df).map StateSummary.mean)), df)

/-- draw_vaccination_state models lines 111-136 of app.py, the same
pipeline over the vaccination metric. -/
def draw_vaccination_state (df : List Row) :
    (List StateSummary × Option ℚ × Option ℚ) × List Row :=
  ((aggregateByState mVacc df,
    seriesMin ((aggregateByState mVacc df).map StateSummary.mean),
    seriesMax ((aggregateByState mVacc df).map StateSummary.mean)), df)

/-- Modelled from the spec: the st.cache_data decorator with ttl 3600 on
load_data_from_s3 is library behaviour whose code is not part of this
repository.  The spec describes it as a mapping from the (bucket, path)
location to the loaded value and its load timestamp, consulted with a
strict elapsed-time expiry check before any remote read. -/
structure CacheEntry where
  key : String × String
  value : Option (List Row)
  time : Nat
  deriving DecidableEq, Repr

/-- Default time-to-live of the load cache, in seconds (ttl=3600). -/
def TTL : Nat := 3600

/-- Modelled from the spec: one call of the cached loader.  A cache entry
for the same location still inside its time-to-live window is returned as
is without touching the remote store; otherwise the remote read runs and
its result is stored under the location with the current time.  The Bool
records whether a remote read was performed. -/
def cachedLoad (cache : List CacheEntry) (key : String × String) (now : Nat)
    (readOutcome : ReadOutcome) :
    Option (List Row) × List CacheEntry × Bool :=
  match cache.find? (fun e => decide (e.key = key) && decide (now < e.time + TTL)) with
  | some e => (e.value, cache, false)
  | none =>
    (load_data_from_s3 readOutcome,
      { key := key, value := load_data_from_s3 readOutcome, time := now } :: cache,
      true)

/-- Sample rows for witnesses, taken from the scenario in the spec: two CA
rows with metric 10 and 20 and one TX row with the metric missing. -/
def rowCA1 : Row :=
  { geo_value := "06001", state_abbr := "CA", time_value := none,
    smoothed_wtested_positive_14d := some 10, smoothed_wcovid_vaccinated := none }

/-- Second CA sample row, metric 20. -/
def rowCA2 : Row :=
  { geo_value := "06002", state_abbr := "CA", time_value := none,
    smoothed_wtested_positive_14d := some 20, smoothed_wcovid_vaccinated := none }

/-- TX sample row with the positive-rate metric missing. -/
def rowTX : Row :=
  { geo_value := "48001", state_abbr := "TX", time_value := none,
    smoothed_wtested_positive_14d := none, smoothed_wcovid_vaccinated := none }

/-- The three-row sample table of the spec scenario. -/
def sampleT : List Row := [rowCA1, rowCA2, rowTX]

/-! Helper lemmas about seriesMin and seriesMax. -/

theorem foldl_min_le_init (a : ℚ) (l : List ℚ) : l.foldl min a ≤ a := by
  induction l generalizing a with
  | nil => exact le_refl a
  | cons x xs ih => exact le_trans (ih (min a x)) (min_le_left a x)

theorem foldl_min_le_mem (x : ℚ) :
    ∀ (l : List ℚ) (a : ℚ), x ∈ l → l.foldl min a ≤ x := by
  intro l
  induction l with
  | nil => intro a hx; cases hx
  | cons y ys ih =>
    intro a hx
    rcases List.mem_cons.mp hx with h | h
    · subst h
      exact le_trans (foldl_min_le_init (min a x) ys) (min_le_right a x)
    · exact ih (min a y) h

theorem init_le_foldl_max (a : ℚ) (l : List ℚ) : a ≤ l.foldl max a := by
  induction l generalizing a with
  | nil => exact le_refl a
  | cons x xs ih => exact le_trans (le_max_left a x) (ih (max a x))

theorem mem_le_foldl_max (x : ℚ) :
    ∀ (l : List ℚ) (a : ℚ), x ∈ l → x ≤ l.foldl max a := by
  intro l
  induction l with
  | nil => intro a hx; cases hx
  | cons y ys ih =>
    intro a hx
    rcases List.mem_cons.mp hx with h | h
    · subst h
      exact le_trans (le_max_right a x) (init_le_foldl_max (max a x) ys)
    · exact ih (max a y) h

theorem seriesMinMax_bounds (l : List ℚ) (h : l ≠ []) :
    ∃ mn mx : ℚ, seriesMin l = some mn ∧ seriesMax l = some mx ∧
      (∀ x ∈ l, mn ≤ x ∧ x ≤ mx) ∧ (l.length = 1 → mn = mx) := by
  match l, h with
  | x :: xs, _ =>
    refine ⟨xs.foldl min x, xs.foldl max x, rfl, rfl, ?_, ?_⟩
    · intro y hy
      rcases List.mem_cons.mp hy with h1 | h1
      · subst h1
        exact ⟨foldl_min_le_init y xs, init_le_foldl_max y xs⟩
      · exact ⟨foldl_min_le_mem y xs x h1, mem_le_foldl_max y xs x h1⟩
    · intro hlen
      have hxs : xs = [] := by
        cases xs with
        | nil => rfl
        | cons z zs => simp at hlen
      subst hxs
      rfl

/-- Unfolding of the state projection of the aggregation output: the
emitted state codes are exactly the deduplicated state codes of the
filtered rows. -/
theorem agg_map_state (M : Row → Option ℚ) (T : List Row) :
    (aggregateByState M T).map StateSummary.state_abbr
      = ((dropna M T).map Row.state_abbr).dedup := by
  have h : StateSummary.state_abbr ∘ groupMean M (dropna M T) = id := rfl
  rw [aggregateByState, groupbyMean, List.map_map, h, List.map_id]

/-- Each state code occurring among the filtered rows contributes at least
one metric value to its group. -/
theorem stateVals_ne_nil (M : Row → Option ℚ) (T : List Row) (s : String)
    (hs : s ∈ (dropna M T).map Row.state_abbr) :
    stateVals M T s ≠ [] := by
  rcases List.mem_map.mp hs with ⟨r, hr, hrs⟩
  have hr2 : r ∈ T.filter (fun r => (M r).isSome) := hr
  have hsome : (M r).isSome = true := (List.mem_filter.mp hr2).2
  rcases Option.isSome_iff_exists.mp hsome with ⟨v, hv⟩
  have hrmem : r ∈ (dropna M T).filter fun r => r.state_abbr == s := by
    exact List.mem_filter.mpr ⟨hr, by simp [hrs]⟩
  have hvmem : v ∈ stateVals M T s :=
    List.mem_filterMap.mpr ⟨r, hrmem, hv⟩
  exact List.ne_nil_of_mem hvmem

/-- C2: state aggregation filters out exactly the missing-metric rows,
emits one summary row per distinct remaining state, and each emitted mean
is the arithmetic mean of that state's included metric values, always over
a positive number of observations. -/
theorem aggregateByState_filter_group_mean (M : Row → Option ℚ) (T : List Row) :
    dropna M T = T.filter (fun r => (M r).isSome) ∧
    ((aggregateByState M T).map StateSummary.state_abbr).Nodup ∧
    (∀ s : String,
      s ∈ (aggregateByState M T).map StateSummary.state_abbr ↔
        s ∈ (dropna M T).map Row.state_abbr) ∧
    ∀ g ∈ aggregateByState M T,
      0 < (stateVals M T g.state_abbr).length ∧
      g.mean = (stateVals M T g.state_abbr).sum /
        ((stateVals M T g.state_abbr).length : ℚ) := by
  refine ⟨rfl, ?_, ?_, ?_⟩
  · rw [agg_map_state]
    exact List.nodup_dedup _
  · intro s
    rw [agg_map_state]
    exact List.mem_dedup
  · intro g hg
    rcases List.mem_map.mp hg with ⟨s, hs, hgs⟩
    have hs2 : s ∈ (dropna M T).map Row.state_abbr := List.mem_dedup.mp hs
    have habbr : g.state_abbr = s := by rw [← hgs]; rfl
    have hne : stateVals M T s ≠ [] := stateVals_ne_nil M T s hs2
    constructor
    · rw [habbr]
      exact List.length_pos.mpr hne
    · rw [habbr, ← hgs]
      rfl

/-- Singleton shape of the sample aggregation, used by witnesses: only CA
survives the filter, so the output is exactly its group row. -/
theorem sample_agg_eq :
    aggregateByState mPos sampleT
      = [groupMean mPos (dropna mPos sampleT) "CA"] := rfl

/-- Witness for C2 at the sample table of the spec scenario. -/
theorem aggregateByState_filter_group_mean_witness :
    0 < (stateVals mPos sampleT "CA").length ∧
    (groupMean mPos (dropna mPos sampleT) "CA").mean
      = (stateVals mPos sampleT "CA").sum /
        ((stateVals mPos sampleT "CA").length : ℚ) :=
  (aggregateByState_filter_group_mean mPos sampleT).2.2.2
    (groupMean mPos (dropna mPos sampleT) "CA")
    (sample_agg_eq ▸ List.mem_singleton.mpr rfl)

/-- C3: for every non-empty aggregation output, the derived colour range
brackets every per-state mean, and a single-state output has a degenerate
range with equal endpoints; both endpoints always exist (the computation is
total, with no division involved). -/
theorem range_brackets_means (M : Row → Option ℚ) (T : List Row)
    (h : aggregateByState M T ≠ []) :
    ∃ mn mx : ℚ,
      rangeOf (aggregateByState M T) = (some mn, some mx) ∧
      (∀ g ∈ aggregateByState M T, mn ≤ g.mean ∧ g.mean ≤ mx) ∧
      ((aggregateByState M T).length = 1 → mn = mx) := by
  have hmap : (aggregateByState M T).map StateSummary.mean ≠ [] := by
    intro hc
    exact h (List.map_eq_nil_iff.mp hc)
  rcases seriesMinMax_bounds _ hmap with ⟨mn, mx, hmin, hmax, hb, hdeg⟩
  refine ⟨mn, mx, ?_, ?_, ?_⟩
  · rw [rangeOf, hmin, hmax]
  · intro g hg
    exact hb g.mean (List.mem_map_of_mem StateSummary.mean hg)
  · intro hlen
    exact hdeg (by rw [List.length_map, hlen])

/-- Witness for C3 at the sample table: the one-state output has an
existing, degenerate range bracketing its single mean. -/
theorem range_brackets_means_witness :
    ∃ mn mx : ℚ,
      rangeOf (aggregateByState mPos sampleT) = (some mn, some mx) ∧
      (∀ g ∈ aggregateByState mPos sampleT, mn ≤ g.mean ∧ g.mean ≤ mx) ∧
      ((aggregateByState mPos sampleT).length = 1 → mn = mx) :=
  range_brackets_means mPos sampleT
    (sample_agg_eq ▸ List.cons_ne_nil _ _)

/-- C4: loading a table whose time_value column is present never aborts on
malformed date text: the loaded rows are exactly the raw rows with only the
time_value field replaced by its coerced parse, the row count is preserved,
and the concrete malformed string of the spec scenario parses to the
missing marker. -/
theorem time_value_parse_tolerance (t : List RawRow) :
    load_data_from_s3 (Except.ok { hasTimeValue := true, rows := t })
      = some (t.map parseRow) ∧
    (t.map parseRow).length = t.length ∧
    (∀ r : RawRow,
      (parseRow r).time_value = parseDate r.time_value ∧
      (parseRow r).geo_value = r.geo_value ∧
      (parseRow r).state_abbr = r.state_abbr ∧
      (parseRow r).smoothed_wtested_positive_14d
        = r.smoothed_wtested_positive_14d ∧
      (parseRow r).smoothed_wcovid_vaccinated
        = r.smoothed_wcovid_vaccinated) ∧
    parseDate "not-a-date" = none := by
  refine ⟨rfl, List.length_map t parseRow, ?_, by decide⟩
  intro r
  exact ⟨rfl, rfl, rfl, rfl, rfl⟩

/-- C5: every exception raised inside the try block is converted to the
single generic failure value none, and the result does not depend on the
exception detail. -/
theorem load_failure_generic (e : String) :
    load_data_from_s3 (Except.error e) = none ∧
    ∀ e2 : String,
      load_data_from_s3 (Except.error e) = load_data_from_s3 (Except.error e2) :=
  ⟨rfl, fun _ => rfl⟩

/-- C6: starting from an empty cache, the first load of a location performs
a remote read; a second load of the same location strictly inside the
time-to-live window returns the identical value and cache without reading;
a load at or after expiry performs a fresh remote read whose result is the
new read outcome. -/
theorem cache_ttl_property (k : String × String) (t0 t1 t2 : Nat)
    (r0 r1 r2 : ReadOutcome)
    (h1 : t1 < t0 + TTL) (h2 : t0 + TTL ≤ t2) :
    (cachedLoad [] k t0 r0).2.2 = true ∧
    cachedLoad (cachedLoad [] k t0 r0).2.1 k t1 r1
      = ((cachedLoad [] k t0 r0).1, (cachedLoad [] k t0 r0).2.1, false) ∧
    (cachedLoad (cachedLoad [] k t0 r0).2.1 k t2 r2).2.2 = true ∧
    (cachedLoad (cachedLoad [] k t0 r0).2.1 k t2 r2).1
      = load_data_from_s3 r2 := by
  have hnot : ¬ t2 < t0 + TTL := Nat.not_lt.mpr h2
  refine ⟨rfl, ?_, ?_, ?_⟩
  · simp [cachedLoad, List.find?, h1]
  · simp [cachedLoad, List.find?, hnot]
  · simp [cachedLoad, List.find?, hnot]

/-- Witness for C6 at a concrete location and concrete times 0, 10 and
3600. -/
theorem cache_ttl_property_witness :
    (cachedLoad [] ("bucket", "data/") 0 (Except.error "boom")).2.2 = true ∧
    cachedLoad (cachedLoad [] ("bucket", "data/") 0 (Except.error "boom")).2.1
        ("bucket", "data/") 10 (Except.ok { hasTimeValue := true, rows := [] })
      = ((cachedLoad [] ("bucket", "data/") 0 (Except.error "boom")).1,
          (cachedLoad [] ("bucket", "data/") 0 (Except.error "boom")).2.1, false) ∧
    (cachedLoad (cachedLoad [] ("bucket", "data/") 0 (Except.error "boom")).2.1
        ("bucket", "data/") 3600 (Except.ok { hasTimeValue := true, rows := [] })).2.2
      = true ∧
    (cachedLoad (cachedLoad [] ("bucket", "data/") 0 (Except.error "boom")).2.1
        ("bucket", "data/") 3600 (Except.ok { hasTimeValue := true, rows := [] })).1
      = load_data_from_s3 (Except.ok { hasTimeValue := true, rows := [] }) :=
  cache_ttl_property ("bucket", "data/") 0 10 3600 (Except.error "boom")
    (Except.ok { hasTimeValue := true, rows := [] })
    (Except.ok { hasTimeValue := true, rows := [] })
    (by decide) (by decide)

/-- C7: state aggregation is deterministic and idempotent: two calls on
identical tables and metric columns return identical summary collections
and identical derived ranges. -/
theorem aggregate_deterministic (M M2 : Row → Option ℚ) (T T2 : List Row)
    (hM : M = M2) (hT : T = T2) :
    aggregateByState M T = aggregateByState M2 T2 ∧
    rangeOf (aggregateByState M T) = rangeOf (aggregateByState M2 T2) := by
  subst hM
  subst hT
  exact ⟨rfl, rfl⟩

/-- Witness for C7 at the sample table and the positive-rate column. -/
theorem aggregate_deterministic_witness :
    aggregateByState mPos sampleT = aggregateByState mPos sampleT ∧
    rangeOf (aggregateByState mPos sampleT)
      = rangeOf (aggregateByState mPos sampleT) :=
  aggregate_deterministic mPos mPos sampleT sampleT rfl rfl

/-- C8: the rendering helpers leave the loaded frame unchanged: the frame
visible to the caller after each call is the input frame itself, because
every pandas operation used is a non-in-place one applied to a derived
copy. -/
theorem draw_leaves_frame_unchanged (df : List Row) :
    (draw_positive_state df).2 = df ∧ (draw_vaccination_state df).2 = df :=
  ⟨rfl, rfl⟩

/-- C9: a successful read whose frame lacks the time_value column makes the
whole load return the generic failure value none, indistinguishable from a
remote-read failure, while any frame carrying the column loads successfully
regardless of its date text. -/
theorem missing_time_column_is_generic_failure (rows : List RawRow) (e : String) :
    load_data_from_s3 (Except.ok { hasTimeValue := false, rows := rows }) = none ∧
    load_data_from_s3 (Except.ok { hasTimeValue := false, rows := rows })
      = load_data_from_s3 (Except.error e) ∧
    ∀ rows2 : List RawRow,
      load_data_from_s3 (Except.ok { hasTimeValue := true, rows := rows2 })
        = some (rows2.map parseRow) :=
  ⟨rfl, rfl, fun _ => rfl⟩

/-- C10: when the metric is missing in every row, aggregation returns the
empty summary collection without raising, and both derived range endpoints
are the missing value none (NaN), not numbers. -/
theorem all_missing_metric_empty_result (M : Row → Option ℚ) (T : List Row)
    (h : ∀ r ∈ T, M r = none) :
    aggregateByState M T = [] ∧
    rangeOf (aggregateByState M T) = (none, none) := by
  have hd : dropna M T = [] := by
    rw [dropna]
    rw [List.filter_eq_nil_iff]
    intro r hr
    simp [h r hr]
  have hagg : aggregateByState M T = [] := by
    rw [aggregateByState, hd]
    rfl
  exact ⟨hagg, by rw [hagg]; rfl⟩

/-- All-missing sample table for the C10 witness: the TX row carries no
positive-rate value. -/
def allMissingT : List Row := [rowTX]

/-- Witness for C10 at the all-missing sample table. -/
theorem all_missing_metric_empty_result_witness :
    aggregateByState mPos allMissingT = [] ∧
    rangeOf (aggregateByState mPos allMissingT) = (none, none) :=
  all_missing_metric_empty_result mPos allMissingT (by decide)

/-- C1 counterexample: an empty-but-successful load is surfaced exactly
like a failed load: empty_warning emits the same st.error message (an
error, not a warning) and returns the same flag for some [] as for none,
so the caller-facing outcome does not separate the two cases. -/
theorem empty_conflated_with_failure :
    empty_warning (some ([] : List Row)) = empty_warning none ∧
    (empty_warning (some ([] : List Row))).2 = some (UiMsg.error emptyWarnMsg) :=
  ⟨rfl, rfl⟩

/-- C1 amended: the loader failure value none is a distinguishable value
from every successful result some t, including the empty table; however
the caller does not exploit the distinction: empty_warning surfaces the
identical generic st.error message for an empty-but-successful table as
for a failed load, with no separate no-data warning. -/
theorem loader_failure_value_distinguishable :
    (∀ t : List Row, (some t : Option (List Row)) ≠ none) ∧
    empty_warning (some ([] : List Row)) = empty_warning none ∧
    (empty_warning (some ([] : List Row))).2 = some (UiMsg.error emptyWarnMsg) ∧
    (empty_warning none).2 = some (UiMsg.error emptyWarnMsg) :=
  ⟨fun _ h => Option.noConfusion h, rfl, rfl, rfl⟩

/-- Witness for the amended C1 at the concrete sample table and the empty
table. -/
theorem loader_failure_value_distinguishable_witness :
    (some sampleT : Option (List Row)) ≠ none ∧
    empty_warning (some ([] : List Row)) = empty_warning none :=
  ⟨loader_failure_value_distinguishable.1 sampleT,
    loader_failure_value_distinguishable.2.1⟩

end CovidApp
